import Mathlib

/-!
Verification development for the eQEP rotary-encoder module
(src/Adafruit_BBIO/Encoder.py).

The module is a sysfs-backed property proxy: a static table of four
channel definitions, plus getter/setter operations that read and write
text attribute files (enabled, mode, position, period) and perform the
frequency/period unit conversion.  The development below embeds the
module shallowly:

* the sysfs attribute node is modelled as a total map from attribute
  names to file contents (strings);
* Python integers are Lean Int, Python floats are exact rationals
  (every float value evaluated concretely in this development is a
  mathematical integer, where binary floating point is exact);
* Python exceptions are explicit error values of type PyError;
* the slash operator on numbers is modelled as Python 3 true division
  (producing a float); where the Python 2 reading (floor division on
  two ints) differs, the relevant theorem statements say so.
-/

deriving instance DecidableEq for Except

namespace EncoderModel

/-- Python exception outcomes reachable in the embedded code.  IndexError
is raised by out-of-range list indexing (the spec calls this condition
InvalidChannelError), valueError by int() on a non-integer string and by
the explicit range checks (the spec calls this InvalidArgumentError),
and zeroDivisionError by division by zero.  Exception message strings
are elided. -/
inductive PyError where
  | indexError
  | valueError
  | zeroDivisionError
deriving DecidableEq

/-- Little-endian base-10 digit list of a natural number, with explicit
structural fuel so that it evaluates by kernel reduction.  With fuel at
least n this agrees with Mathlib's Nat.digits 10 (lemma digitsLE_eq). -/
def digitsLE : Nat → Nat → List Nat
  | 0, _ => []
  | fuel + 1, n => if n = 0 then [] else n % 10 :: digitsLE fuel (n / 10)

/-- Decimal character list of a natural number, most significant digit
first; models the text produced by Python str() on a non-negative int. -/
def natDecimal (n : Nat) : List Char :=
  if n = 0 then ['0'] else ((digitsLE n n).map Nat.digitChar).reverse

/-- Models Python str() on a non-negative int. -/
def pyStrNat (n : Nat) : String :=
  String.mk (natDecimal n)

/-- Models Python str() on an int: decimal text with a leading minus sign
for negative values. -/
def pyStrInt : Int → String
  | Int.ofNat n => pyStrNat n
  | Int.negSucc n => String.mk ('-' :: natDecimal (n + 1))

/-- Numeric value of a decimal digit character, or none for any other
character. -/
def digitVal? (c : Char) : Option Nat :=
  if '0' ≤ c ∧ c ≤ '9' then some (c.toNat - Char.toNat '0') else none

/-- Digit values of a character list (in the same, most-significant-first
order); none if any character is not a decimal digit. -/
def digitsVals? : List Char → Option (List Nat)
  | [] => some []
  | c :: cs =>
      Option.bind (digitVal? c) fun d =>
        Option.bind (digitsVals? cs) fun ds => some (d :: ds)

/-- Value of a little-endian base-10 digit list (kernel-reducible mirror
of Nat.ofDigits 10). -/
def valOfDigitsLE : List Nat → Nat
  | [] => 0
  | d :: ds => d + 10 * valOfDigitsLE ds

/-- Parses a non-empty all-digit character list as a natural number;
models the digit-string core of Python int(). -/
def pyParseNat? : List Char → Option Nat
  | [] => none
  | c :: cs =>
      Option.map (fun ds => valOfDigitsLE ds.reverse) (digitsVals? (c :: cs))

/-- Sign handling of Python int() on a character list: an optional single
leading sign followed by one or more decimal digits. -/
def pyParseIntAux : List Char → Option Int
  | [] => none
  | c :: cs =>
      if c = '-' then Option.map (fun n : Nat => -(n : Int)) (pyParseNat? cs)
      else if c = '+' then Option.map (fun n : Nat => (n : Int)) (pyParseNat? cs)
      else Option.map (fun n : Nat => (n : Int)) (pyParseNat? (c :: cs))

/-- Models Python int() applied to a string: an optional single leading
sign followed by one or more decimal digits; any other shape raises
ValueError (returned here as none). -/
def pyParseInt? (s : String) : Option Int :=
  pyParseIntAux s.data

/-- Modelled from the spec: the sysfs attribute Node class
(Adafruit_BBIO/sysfs.py, imported by Encoder.py but not part of this
module) maps attribute names to the text contents of the files under the
resolved device directory; get returns the file contents and set
overwrites them verbatim (spec section 4.1, a pure proxy with no
caching).  The store is total: the four attribute files of an eQEP
device node are always present. -/
def AttrStore : Type := String → String

/-- Overwrites one attribute file, leaving the rest of the store
unchanged (the set operation of the attribute node). -/
def setAttr (st : AttrStore) (name v : String) : AttrStore :=
  fun a => if a = name then v else st a

/-- An empty device directory state: every attribute file reads as the
empty string. -/
def st0 : AttrStore := fun _ => ""

/-- One entry of the channel table: channel name, the two physical pins
and the sysfs device path (Encoder.py lines 103-112). -/
structure EQEPDef where
  channel : String
  pin_A : String
  pin_B : String
  sys_path : String
deriving DecidableEq

/-- The OCP platform directory prefix (_OCP_PATH, Encoder.py line 102). -/
def OCP_PATH : String := "/sys/devices/platform/ocp"

/-- Channel definition for eQEP0 (first entry of _eQEP_DEFS). -/
def eQEP0_def : EQEPDef :=
  ⟨"eQEP0", "P9_92", "P9_27", OCP_PATH ++ "/48300000.epwmss/48300180.eqep"⟩

/-- Channel definition for eQEP1 (second entry of _eQEP_DEFS). -/
def eQEP1_def : EQEPDef :=
  ⟨"eQEP1", "P8_35", "P8_33", OCP_PATH ++ "/48302000.epwmss/48302180.eqep"⟩

/-- Channel definition for eQEP2 (third entry of _eQEP_DEFS). -/
def eQEP2_def : EQEPDef :=
  ⟨"eQEP2", "P8_12", "P8_11", OCP_PATH ++ "/48304000.epwmss/48304180.eqep"⟩

/-- Channel definition for eQEP2b (fourth entry of _eQEP_DEFS); same
device path as eQEP2, alternative pin exposure. -/
def eQEP2b_def : EQEPDef :=
  ⟨"eQEP2b", "P8_41", "P8_42", OCP_PATH ++ "/48304000.epwmss/48304180.eqep"⟩

/-- The channel table _eQEP_DEFS (Encoder.py lines 103-112), in source
order; the module-level selectors are eQEP0 = 0, eQEP1 = 1, eQEP2 = 2,
eQEP2b = 3 (lines 86-99). -/
def eQEP_DEFS : List EQEPDef :=
  [eQEP0_def, eQEP1_def, eQEP2_def, eQEP2b_def]

/-- Effective index of Python list subscription: negative indices count
from the end of the list. -/
def pyNormIndex (len : Nat) (i : Int) : Int :=
  if i < 0 then i + len else i

/-- Python list subscription l[i]: negative indices count from the end
of the list; an index out of the range -len(l) <= i < len(l) raises
IndexError.  This is the semantics of the lookup _eQEP_DEFS[eqep_num]
in RotaryEncoder.__init__ (Encoder.py line 195). -/
def pyListGet {α : Type} (l : List α) (i : Int) : Except PyError α :=
  if h : 0 ≤ pyNormIndex l.length i ∧ pyNormIndex l.length i < (l.length : Int) then
    .ok (l.get ⟨(pyNormIndex l.length i).toNat, by omega⟩)
  else
    .error .indexError

/-- The nanoseconds-per-second factor self._NS_FACTOR (Encoder.py
line 188). -/
def NS_FACTOR : Int := 1000000000

/-- Models the mode property getter (Encoder.py lines 252-272): parses
the mode attribute file with int() and returns the parsed value (the
absolute/relative/invalid classification only feeds the debug log). -/
def getMode (st : AttrStore) : Except PyError Int :=
  match pyParseInt? (st "mode") with
  | none => .error .valueError
  | some m => .ok m

/-- Models the mode property setter (Encoder.py lines 274-289) on an
integer argument (int(mode) is the identity there): values outside 0..1
raise ValueError before the attribute file is touched, otherwise str(mode)
is written to the mode attribute. -/
def setMode (st : AttrStore) (mode : Int) : Except PyError Unit × AttrStore :=
  if mode < 0 ∨ mode > 1 then (.error .valueError, st)
  else (.ok (), setAttr st "mode" (pyStrInt mode))

/-- Models the position property getter (Encoder.py lines 306-320):
int() applied to the position attribute file. -/
def getPosition (st : AttrStore) : Except PyError Int :=
  match pyParseInt? (st "position") with
  | none => .error .valueError
  | some p => .ok p

/-- Models the position property setter (Encoder.py lines 322-330) on an
integer argument: writes str(position) to the position attribute, no
validation. -/
def setPosition (st : AttrStore) (position : Int) :
    Except PyError Unit × AttrStore :=
  (.ok (), setAttr st "position" (pyStrInt position))

/-- Models zero() (Encoder.py lines 361-364): sets the position to 0. -/
def zero (st : AttrStore) : Except PyError Unit × AttrStore :=
  setPosition st 0

/-- Models the frequency property getter (Encoder.py lines 332-346):
frequency = NS_FACTOR / int(period attribute).  int() on a non-integer
string raises ValueError; a parsed period of 0 raises ZeroDivisionError;
otherwise the division is Python 3 true division, returning a float,
modelled as an exact rational (exact whenever the quotient is an
integer, as at every input evaluated in this development). -/
def getFrequency (st : AttrStore) : Except PyError ℚ :=
  match pyParseInt? (st "period") with
  | none => .error .valueError
  | some p =>
      if p = 0 then .error .zeroDivisionError
      else .ok ((NS_FACTOR : ℚ) / (p : ℚ))

/-- Models Python str() on a float value.  Every float value this
development applies it to is a mathematical integer, which Python prints
as the integer text followed by ".0"; for non-integer rationals the
exact num/den text stands in for Python's shortest-round-trip decimal
form (never evaluated here). -/
def pyStrFloat (q : ℚ) : String :=
  if q.den = 1 then pyStrInt q.num ++ ".0"
  else pyStrInt q.num ++ "/" ++ pyStrNat q.den

/-- Models the frequency property setter (Encoder.py lines 348-359):
period = NS_FACTOR / frequency (Python 3 true division, a float; 0
raises ZeroDivisionError before any write), then str(period) is written
to the period attribute.  The source performs no range validation on
frequency. -/
def setFrequency (st : AttrStore) (frequency : ℚ) :
    Except PyError Unit × AttrStore :=
  if frequency = 0 then (.error .zeroDivisionError, st)
  else (.ok (), setAttr st "period" (pyStrFloat ((NS_FACTOR : ℚ) / frequency)))

/-- Models the enabled property getter (Encoder.py lines 211-220):
bool(int(enabled attribute)). -/
def getEnabled (st : AttrStore) : Except PyError Bool :=
  match pyParseInt? (st "enabled") with
  | none => .error .valueError
  | some n => .ok (n != 0)

/-- Models _setEnable (Encoder.py lines 222-240) on an integer argument:
values outside 0..1 raise ValueError, otherwise str(enabled) is written
to the enabled attribute. -/
def setEnable (st : AttrStore) (enabled : Int) :
    Except PyError Unit × AttrStore :=
  if enabled < 0 ∨ enabled > 1 then (.error .valueError, st)
  else (.ok (), setAttr st "enabled" (pyStrInt enabled))

/-- Result of invoking the external config-pin utility: normal
termination with output, or a CalledProcessError carrying the non-zero
exit code and output (Encoder.py lines 164-177). -/
inductive CmdResult where
  | normal (output : String)
  | failed (code : Int) (output : String)

/-- Environment model: the outcome of each external command
invocation. -/
def CmdOracle : Type := List String → CmdResult

/-- Observable outcome of RotaryEncoder.__init__ (Encoder.py lines
184-209): the result (resolved channel definition, or the exception),
the attribute store afterwards, the external commands invoked via
_run_cmd, and the subset of those commands whose failure was logged as
a warning (CalledProcessError is caught inside _run_cmd; it never
propagates). -/
structure InitOut where
  res : Except PyError EQEPDef
  store : AttrStore
  cmds : List (List String)
  warnings : List (List String)

/-- Warning log entries produced by one _run_cmd call (Encoder.py lines
164-177): empty on exit status zero, the command itself on
CalledProcessError. -/
def runCmdWarnings (oracle : CmdOracle) (cmd : List String) : List (List String) :=
  match oracle cmd with
  | .normal _ => []
  | .failed _ _ => [cmd]

/-- Models RotaryEncoder.__init__ (Encoder.py lines 184-209): resolve
_eQEP_DEFS[eqep_num] (IndexError propagates, before any command or
write), run config-pin on pin A and pin B in qep mode (best effort:
failures become warnings), then enable the channel, writing "1" to the
enabled attribute. -/
def rotaryEncoderInit (oracle : CmdOracle) (eqep_num : Int) (st : AttrStore) :
    InitOut :=
  match pyListGet eQEP_DEFS eqep_num with
  | .error e => ⟨.error e, st, [], []⟩
  | .ok d =>
      let cmdA := ["config-pin", d.pin_A, "qep"]
      let cmdB := ["config-pin", d.pin_B, "qep"]
      ⟨.ok d, (setEnable st 1).2, [cmdA, cmdB],
        runCmdWarnings oracle cmdA ++ runCmdWarnings oracle cmdB⟩

/-- A configurator environment in which every external command succeeds. -/
def okOracle : CmdOracle := fun _ => .normal ""

/-- A configurator environment in which every external command exits
with status 1. -/
def failOracle : CmdOracle := fun _ => .failed 1 ""

theorem digitsLE_eq (fuel n : Nat) (h : n ≤ fuel) :
    digitsLE fuel n = Nat.digits 10 n := by
  induction fuel generalizing n with
  | zero =>
      have hn : n = 0 := Nat.le_zero.mp h
      subst hn
      simp [digitsLE]
  | succ fuel ih =>
      by_cases hn : n = 0
      · subst hn
        simp [digitsLE]
      · have hpos : 0 < n := Nat.pos_of_ne_zero hn
        have hdiv : n / 10 < n := Nat.div_lt_self hpos (by norm_num)
        rw [digitsLE, if_neg hn, ih (n / 10) (by omega),
          Nat.digits_def' (by norm_num : (1 : Nat) < 10) hpos]

theorem valOfDigitsLE_eq (L : List Nat) :
    valOfDigitsLE L = Nat.ofDigits 10 L := by
  induction L with
  | nil => simp [valOfDigitsLE, Nat.ofDigits_nil]
  | cons d ds ih => simp [valOfDigitsLE, Nat.ofDigits_cons, ih]

theorem digitVal_digitChar (d : Nat) (h : d < 10) :
    digitVal? (Nat.digitChar d) = some d := by
  interval_cases d <;> decide

theorem digitChar_ne_sign (d : Nat) (h : d < 10) :
    Nat.digitChar d ≠ '-' ∧ Nat.digitChar d ≠ '+' := by
  interval_cases d <;> exact (by decide)

theorem digitsVals_map_digitChar (L : List Nat) (h : ∀ d ∈ L, d < 10) :
    digitsVals? (L.map Nat.digitChar) = some L := by
  induction L with
  | nil => rfl
  | cons d ds ih =>
      have hd : d < 10 := h d (List.mem_cons_self d ds)
      have hds : ∀ x ∈ ds, x < 10 := fun x hx => h x (List.mem_cons_of_mem d hx)
      simp only [List.map_cons, digitsVals?, digitVal_digitChar d hd, ih hds]
      rfl

theorem pyParseNat_natDecimal (n : Nat) :
    pyParseNat? (natDecimal n) = some n := by
  by_cases hn : n = 0
  · subst hn; rfl
  · have hd : digitsLE n n = Nat.digits 10 n := digitsLE_eq n n (Nat.le_refl n)
    have hlt : ∀ d ∈ (Nat.digits 10 n).reverse, d < 10 := fun d hdm =>
      Nat.digits_lt_base (by norm_num) (List.mem_reverse.mp hdm)
    have hne : (Nat.digits 10 n).reverse ≠ [] := by
      simp [Nat.digits_ne_nil_iff_ne_zero, hn]
    obtain ⟨d, ds, hcons⟩ := List.exists_cons_of_ne_nil hne
    have hmap : natDecimal n = Nat.digitChar d :: ds.map Nat.digitChar := by
      rw [natDecimal, if_neg hn, hd, ← List.map_reverse, hcons, List.map_cons]
    rw [hmap]
    have hvals : digitsVals? (Nat.digitChar d :: ds.map Nat.digitChar)
        = some (d :: ds) := by
      rw [← List.map_cons, ← hcons]
      exact digitsVals_map_digitChar _ hlt
    simp only [pyParseNat?, hvals, Option.map_some']
    rw [← hcons, List.reverse_reverse, valOfDigitsLE_eq, Nat.ofDigits_digits]

theorem natDecimal_head (n : Nat) :
    ∃ d cs, d < 10 ∧ natDecimal n = Nat.digitChar d :: cs := by
  by_cases hn : n = 0
  · exact ⟨0, [], by norm_num, by subst hn; rfl⟩
  · have hd : digitsLE n n = Nat.digits 10 n := digitsLE_eq n n (Nat.le_refl n)
    have hne : (Nat.digits 10 n).reverse ≠ [] := by
      simp [Nat.digits_ne_nil_iff_ne_zero, hn]
    obtain ⟨d, ds, hcons⟩ := List.exists_cons_of_ne_nil hne
    refine ⟨d, ds.map Nat.digitChar, ?_, ?_⟩
    · exact Nat.digits_lt_base (by norm_num)
        (List.mem_reverse.mp (hcons ▸ List.mem_cons_self d ds))
    · rw [natDecimal, if_neg hn, hd, ← List.map_reverse, hcons, List.map_cons]

theorem pyParseInt_pyStrInt (i : Int) : pyParseInt? (pyStrInt i) = some i := by
  cases i with
  | ofNat n =>
      obtain ⟨d, cs, hd10, hcons⟩ := natDecimal_head n
      have hsign := digitChar_ne_sign d hd10
      have hdata : (pyStrInt (Int.ofNat n)).data = Nat.digitChar d :: cs := by
        simp only [pyStrInt, pyStrNat]
        exact hcons
      rw [pyParseInt?, hdata, pyParseIntAux, if_neg hsign.1, if_neg hsign.2,
        ← hcons, pyParseNat_natDecimal, Option.map_some']
      rfl
  | negSucc n =>
      have hdata : (pyStrInt (Int.negSucc n)).data = '-' :: natDecimal (n + 1) := by
        simp only [pyStrInt]
      rw [pyParseInt?, hdata, pyParseIntAux, if_pos rfl, pyParseNat_natDecimal,
        Option.map_some']
      congr 1

theorem setAttr_get_same (st : AttrStore) (n v : String) : setAttr st n v n = v := by
  simp [setAttr]

theorem pyListGet_error_iff {α : Type} (l : List α) (v : Int) :
    pyListGet l v = Except.error PyError.indexError
      ↔ ((l.length : Int) ≤ v ∨ v < -(l.length : Int)) := by
  rw [pyListGet]
  split
  · next h =>
      constructor
      · intro hc
        exact absurd hc (by simp)
      · intro hr
        exfalso
        rw [pyNormIndex] at h
        split at h <;> omega
  · next h =>
      constructor
      · intro _
        rw [pyNormIndex] at h
        split at h <;> omega
      · intro _
        rfl

/-- Claim C9: for all four channel selectors, resolution returns a
definition with a non-empty device path and distinct pin A / pin B
names, and the definitions for channel 2 (eQEP2) and channel 2b
(eQEP2b) carry the same device path. -/
theorem c9_channel_table :
    (∀ d ∈ eQEP_DEFS, d.sys_path ≠ "" ∧ d.pin_A ≠ d.pin_B)
      ∧ pyListGet eQEP_DEFS 2 = Except.ok eQEP2_def
      ∧ pyListGet eQEP_DEFS 3 = Except.ok eQEP2b_def
      ∧ eQEP2_def.sys_path = eQEP2b_def.sys_path := by decide

/-- Claim C3 counterexample: the selector -1 lies outside the set
{0, 1, 2, 3}, yet resolution does not fail: Python's negative list
indexing returns the last table entry (eQEP2b). -/
theorem c3_counterexample :
    ¬((-1 : Int) = 0 ∨ (-1 : Int) = 1 ∨ (-1 : Int) = 2 ∨ (-1 : Int) = 3)
      ∧ pyListGet eQEP_DEFS (-1) = Except.ok eQEP2b_def := by decide

/-- Claim C3 as amended: channel resolution fails with
InvalidChannelError (an IndexError from _eQEP_DEFS[eqep_num]) exactly
for integer selectors outside -4..3; selectors -4..-1 are accepted by
Python's negative indexing and resolve counted from the end of the
4-entry table. -/
theorem c3_resolve_error_iff (v : Int) :
    pyListGet eQEP_DEFS v = Except.error PyError.indexError
      ↔ (4 ≤ v ∨ v < -4) := by
  rw [pyListGet_error_iff]
  have h4 : ((eQEP_DEFS.length : Nat) : Int) = 4 := rfl
  rw [h4]

/-- Witness for the amended claim C3 at the concrete selector 99. -/
theorem c3_witness : pyListGet eQEP_DEFS 99 = Except.error PyError.indexError :=
  (c3_resolve_error_iff 99).mpr (by omega)

/-- Claim C4: reading the frequency while the period attribute file
holds "0" yields the defined, catchable ZeroDivisionError value (the
division by zero in frequency = 1e9 / period), not an undefined
outcome. -/
theorem c4_zero_period_division (st : AttrStore) (h : st "period" = "0") :
    getFrequency st = Except.error PyError.zeroDivisionError := by
  rw [getFrequency, h]
  rfl

/-- Witness for claim C4 on a concrete store whose period file holds
"0". -/
theorem c4_witness :
    getFrequency (setAttr st0 "period" "0") = Except.error PyError.zeroDivisionError :=
  c4_zero_period_division (setAttr st0 "period" "0") rfl

/-- Claim C6: setting the mode to any integer outside 0..1 raises
ValueError (the spec's InvalidArgumentError) and returns the attribute
store unchanged: the check at Encoder.py lines 282-285 precedes the
write at line 287. -/
theorem c6_mode_set_invalid_no_io (st : AttrStore) (m : Int) (h : m < 0 ∨ 1 < m) :
    setMode st m = (Except.error PyError.valueError, st) := by
  rw [setMode, if_pos h]

/-- Witness for claim C6 at mode value 2 on a concrete store. -/
theorem c6_witness : setMode st0 2 = (Except.error PyError.valueError, st0) :=
  c6_mode_set_invalid_no_io st0 2 (by omega)

/-- Claim C8: numeric attribute writes round-trip through their
getters: setting mode 0 or 1 then reading returns the same value,
setting any integer position then reading returns it, and zero()
followed by a position read returns 0. -/
theorem c8_numeric_roundtrip :
    (∀ (st : AttrStore) (m : Int), m = 0 ∨ m = 1 →
        getMode (setMode st m).2 = Except.ok m)
      ∧ (∀ (st : AttrStore) (p : Int),
        getPosition (setPosition st p).2 = Except.ok p)
      ∧ (∀ st : AttrStore, getPosition (zero st).2 = Except.ok 0) := by
  have hpos : ∀ (st : AttrStore) (p : Int),
      getPosition (setPosition st p).2 = Except.ok p := by
    intro st p
    show getPosition (setAttr st "position" (pyStrInt p)) = Except.ok p
    rw [getPosition, setAttr_get_same, pyParseInt_pyStrInt]
  refine ⟨?_, hpos, fun st => hpos st 0⟩
  intro st m hm
  have hcond : ¬(m < 0 ∨ m > 1) := by omega
  rw [setMode, if_neg hcond]
  show getMode (setAttr st "mode" (pyStrInt m)) = Except.ok m
  rw [getMode, setAttr_get_same, pyParseInt_pyStrInt]

/-- Witness for claim C8 at mode 1, position 15 and a zero() call on a
concrete store. -/
theorem c8_witness :
    getMode (setMode st0 1).2 = Except.ok 1
      ∧ getPosition (setPosition st0 15).2 = Except.ok 15
      ∧ getPosition (zero st0).2 = Except.ok 0 :=
  ⟨c8_numeric_roundtrip.1 st0 1 (Or.inr rfl), c8_numeric_roundtrip.2.1 st0 15,
    c8_numeric_roundtrip.2.2 st0⟩

/-- Claim C1, evaluated on the code: under Python 3 true division the
frequency setter computes the float 1e9/1000 and writes its str() text
"1000000.0" to the period attribute, not the claimed integer text
"1000000"; the frequency getter then fails with ValueError because
int() cannot parse the float text the setter itself wrote.  Only the
second half of the claim holds: writing period "1000000" directly and
reading the frequency returns 1000.  (Under Python 2, where both
operands of the setter's division are ints, floor division would
produce the integer text and the claim would hold; the module
advertises no such restriction and its getter/setter pair is
inconsistent under Python 3.) -/
theorem c1_frequency_period_text :
    (setFrequency st0 1000).1 = Except.ok ()
      ∧ ((setFrequency st0 1000).2) "period" = "1000000.0"
      ∧ "1000000.0" ≠ "1000000"
      ∧ getFrequency ((setFrequency st0 1000).2) = Except.error PyError.valueError
      ∧ getFrequency (setAttr st0 "period" "1000000") = Except.ok 1000 := by
  have hq : (NS_FACTOR : ℚ) / 1000 = 1000000 := by norm_num [NS_FACTOR]
  have hs : pyStrFloat (1000000 : ℚ) = "1000000.0" := by decide
  have hset : setFrequency st0 1000
      = (Except.ok (), setAttr st0 "period" "1000000.0") := by
    rw [setFrequency, if_neg (by norm_num : ¬(1000 : ℚ) = 0), hq, hs]
  refine ⟨by rw [hset], by rw [hset]; rfl, by decide, by rw [hset]; rfl, ?_⟩
  show Except.ok ((NS_FACTOR : ℚ) / ((1000000 : Int) : ℚ)) = Except.ok 1000
  congr 1
  norm_num [NS_FACTOR]

/-- Claim C2 counterexample: setting the frequency to -1000 (a value
f ≤ 0) raises no error at all, and the period attribute file IS
written (with the text of the negative float period), refuting both
the InvalidArgumentError and the no-I/O parts of the claim. -/
theorem c2_counterexample :
    (-1000 : ℚ) < 0
      ∧ (setFrequency st0 (-1000)).1 = Except.ok ()
      ∧ ((setFrequency st0 (-1000)).2) "period" = "-1000000.0"
      ∧ ((setFrequency st0 (-1000)).2) "period" ≠ st0 "period" := by
  have hq : (NS_FACTOR : ℚ) / (-1000) = -1000000 := by norm_num [NS_FACTOR]
  have hs : pyStrFloat (-1000000 : ℚ) = "-1000000.0" := by decide
  have hset : setFrequency st0 (-1000)
      = (Except.ok (), setAttr st0 "period" "-1000000.0") := by
    rw [setFrequency, if_neg (by norm_num : ¬(-1000 : ℚ) = 0), hq, hs]
  exact ⟨by norm_num, by rw [hset], by rw [hset]; rfl, by rw [hset]; decide⟩

/-- Claim C2 as amended: the frequency setter performs no range
validation.  Setting the frequency to 0 raises ZeroDivisionError (from
the division period = 1e9/frequency, before any write, so the store is
unchanged); setting any negative frequency raises nothing and writes
the str() text of the negative float period to the period attribute. -/
theorem c2_frequency_setter_no_validation :
    (∀ st : AttrStore,
        setFrequency st 0 = (Except.error PyError.zeroDivisionError, st))
      ∧ ∀ (st : AttrStore) (f : ℚ), f < 0 →
          setFrequency st f
            = (Except.ok (),
                setAttr st "period" (pyStrFloat ((NS_FACTOR : ℚ) / f))) := by
  constructor
  · intro st
    rw [setFrequency, if_pos rfl]
  · intro st f hf
    rw [setFrequency, if_neg (ne_of_lt hf)]

/-- Witness for the amended claim C2 at frequency -2 on a concrete
store. -/
theorem c2_witness :
    (-2 : ℚ) < 0
      ∧ setFrequency st0 (-2)
          = (Except.ok (),
              setAttr st0 "period" (pyStrFloat ((NS_FACTOR : ℚ) / (-2)))) :=
  ⟨by norm_num, c2_frequency_setter_no_validation.2 st0 (-2) (by norm_num)⟩

/-- Claim C5 counterexample: the selector -1 is not one of the four
channel identifiers {0, 1, 2, 3}, yet construction does not raise: it
resolves eQEP2b by negative indexing, invokes the pin configurator for
both of its pins and writes the enabled attribute. -/
theorem c5_counterexample :
    ¬((-1 : Int) = 0 ∨ (-1 : Int) = 1 ∨ (-1 : Int) = 2 ∨ (-1 : Int) = 3)
      ∧ (rotaryEncoderInit okOracle (-1) st0).res = Except.ok eQEP2b_def
      ∧ (rotaryEncoderInit okOracle (-1) st0).cmds
          = [["config-pin", "P8_41", "qep"], ["config-pin", "P8_42", "qep"]]
      ∧ ((rotaryEncoderInit okOracle (-1) st0).store) "enabled" = "1" := by
  exact ⟨by decide, rfl, rfl, rfl⟩

/-- Claim C5 as amended: constructing a controller with an integer
selector outside -4..3 raises InvalidChannelError (an IndexError from
the table lookup) before any pin configuration and before any write:
no external command is invoked and the attribute store is returned
unchanged.  Selectors -4..-1 are accepted by Python's negative
indexing and construct normally. -/
theorem c5_init_invalid_selector (oracle : CmdOracle) (st : AttrStore) (v : Int)
    (h : 4 ≤ v ∨ v < -4) :
    rotaryEncoderInit oracle v st
      = ⟨Except.error PyError.indexError, st, [], []⟩ := by
  have he : pyListGet eQEP_DEFS v = Except.error PyError.indexError := by
    rw [pyListGet_error_iff]
    have h4 : ((eQEP_DEFS.length : Nat) : Int) = 4 := rfl
    rw [h4]
    omega
  rw [rotaryEncoderInit, he]

/-- Witness for the amended claim C5 at the concrete selector 99. -/
theorem c5_witness :
    rotaryEncoderInit okOracle 99 st0
      = ⟨Except.error PyError.indexError, st0, [], []⟩ :=
  c5_init_invalid_selector okOracle st0 99 (by omega)

/-- Claim C7: in an environment where the external config-pin utility
exits with status 1 on every invocation, construction on channel eQEP2
still completes (CalledProcessError is caught inside _run_cmd and
logged as a warning for each of the two pin commands) and the hardware
is enabled afterwards: the enabled attribute holds "1" and the enabled
getter returns true. -/
theorem c7_failing_configurator_best_effort (st : AttrStore) :
    (rotaryEncoderInit failOracle 2 st).res = Except.ok eQEP2_def
      ∧ ((rotaryEncoderInit failOracle 2 st).store) "enabled" = "1"
      ∧ getEnabled ((rotaryEncoderInit failOracle 2 st).store) = Except.ok true
      ∧ (rotaryEncoderInit failOracle 2 st).warnings
          = [["config-pin", "P8_12", "qep"], ["config-pin", "P8_11", "qep"]] :=
  ⟨rfl, rfl, rfl, rfl⟩

/-- Witness for claim C7 on a concrete store. -/
theorem c7_witness :
    (rotaryEncoderInit failOracle 2 st0).res = Except.ok eQEP2_def
      ∧ ((rotaryEncoderInit failOracle 2 st0).store) "enabled" = "1"
      ∧ getEnabled ((rotaryEncoderInit failOracle 2 st0).store) = Except.ok true
      ∧ (rotaryEncoderInit failOracle 2 st0).warnings
          = [["config-pin", "P8_12", "qep"], ["config-pin", "P8_11", "qep"]] :=
  c7_failing_configurator_best_effort st0

/-- Claim C10: the negative integer selectors -1, -2, -3, -4 do not
raise: Python's negative list indexing resolves them from the end of
the 4-entry table (-1 to eQEP2b, -2 to eQEP2, -3 to eQEP1, -4 to
eQEP0), and construction proceeds to invoke the pin configurator on
that channel's pins and to write "1" to the enabled attribute. -/
theorem c10_negative_selectors (oracle : CmdOracle) (st : AttrStore) :
    ((rotaryEncoderInit oracle (-1) st).res = Except.ok eQEP2b_def
        ∧ (rotaryEncoderInit oracle (-1) st).cmds
            = [["config-pin", "P8_41", "qep"], ["config-pin", "P8_42", "qep"]]
        ∧ ((rotaryEncoderInit oracle (-1) st).store) "enabled" = "1")
      ∧ ((rotaryEncoderInit oracle (-2) st).res = Except.ok eQEP2_def
        ∧ (rotaryEncoderInit oracle (-2) st).cmds
            = [["config-pin", "P8_12", "qep"], ["config-pin", "P8_11", "qep"]]
        ∧ ((rotaryEncoderInit oracle (-2) st).store) "enabled" = "1")
      ∧ ((rotaryEncoderInit oracle (-3) st).res = Except.ok eQEP1_def
        ∧ (rotaryEncoderInit oracle (-3) st).cmds
            = [["config-pin", "P8_35", "qep"], ["config-pin", "P8_33", "qep"]]
        ∧ ((rotaryEncoderInit oracle (-3) st).store) "enabled" = "1")
      ∧ ((rotaryEncoderInit oracle (-4) st).res = Except.ok eQEP0_def
        ∧ (rotaryEncoderInit oracle (-4) st).cmds
            = [["config-pin", "P9_92", "qep"], ["config-pin", "P9_27", "qep"]]
        ∧ ((rotaryEncoderInit oracle (-4) st).store) "enabled" = "1") :=
  ⟨⟨rfl, rfl, rfl⟩, ⟨rfl, rfl, rfl⟩, ⟨rfl, rfl, rfl⟩, ⟨rfl, rfl, rfl⟩⟩

/-- Witness for claim C10 in a concrete environment and store. -/
theorem c10_witness :
    (rotaryEncoderInit okOracle (-1) st0).res = Except.ok eQEP2b_def
      ∧ (rotaryEncoderInit okOracle (-4) st0).res = Except.ok eQEP0_def :=
  ⟨(c10_negative_selectors okOracle st0).1.1,
    (c10_negative_selectors okOracle st0).2.2.2.1⟩
